import Mathlib

/-!
Shallow embedding of `trustme` (src/trustme/__init__.py): a testing utility
that builds a self-signed certificate authority and issues leaf server
certificates, plus helpers (`Blob`) for handling the PEM-encoded material.

Modelling conventions:
- External cryptographic primitives (RSA key generation, SHA256 signing,
  PEM encoding) are out of scope for the repository and are modelled
  abstractly: a private key is an opaque identifier, its public half is a
  tagged copy of that identifier, the key-identifier digest of a public key
  is the public key itself, and a PEM blob holding a certificate or key is
  represented by the certificate or key value itself (PEM encode/decode is
  a bijection performed by the external library).
- Nondeterministic inputs of the Python code (the current time obtained from
  `datetime.datetime.today()`, the random serial number, the freshly
  generated key) are passed as explicit parameters.
- `datetime` values are modelled at calendar-date granularity, which is the
  granularity at which `replace(year=...)` can fail and at which the claims
  speak.
-/

namespace Trustme

/-- Calendar date: the date part of the Python `datetime` values used by
`_cert_builder_common`. -/
structure Date where
  year : Nat
  month : Nat
  day : Nat
deriving DecidableEq, Repr

/-- Gregorian leap-year rule, as implemented by Python's `datetime`. -/
def isLeapYear (y : Nat) : Bool :=
  (y % 4 == 0 && y % 100 != 0) || (y % 400 == 0)

/-- Number of days in a month, as validated by Python's `datetime`. -/
def daysInMonth (y m : Nat) : Nat :=
  if m == 2 then (if isLeapYear y then 29 else 28)
  else if m == 4 || m == 6 || m == 9 || m == 11 then 30
  else 31

/-- A date that `datetime` would accept: Python bounds years to
`MINYEAR = 1 ≤ year ≤ MAXYEAR = 9999`. -/
def Date.valid (d : Date) : Bool :=
  1 ≤ d.year && d.year ≤ 9999 && 1 ≤ d.month && d.month ≤ 12 &&
  1 ≤ d.day && d.day ≤ daysInMonth d.year d.month

/-- `today.replace(year=y)`: keeps month and day; raises `ValueError`
(here: `none`) when the target year falls outside `MINYEAR..MAXYEAR`
(1..9999) or the day does not exist in that month of the target year
(February 29 mapped to a non-leap year). -/
def Date.replaceYear (d : Date) (y : Nat) : Option Date :=
  if 1 ≤ y ∧ y ≤ 9999 ∧ d.day ≤ daysInMonth y d.month then some ⟨y, d.month, d.day⟩
  else none

/-- `today - datetime.timedelta(1, 0, 0)`: the previous calendar day;
raises `OverflowError` (here: `none`) when the result would fall before
`datetime.min` (0001-01-01). -/
def Date.prevDay (d : Date) : Option Date :=
  if 1 < d.day then some ⟨d.year, d.month, d.day - 1⟩
  else if 1 < d.month then some ⟨d.year, d.month - 1, daysInMonth d.year (d.month - 1)⟩
  else if 1 < d.year then some ⟨d.year - 1, 12, 31⟩
  else none

/-- Opaque public key (`key.public_key()` of the cryptographic backend). -/
structure PubKey where
  keyId : Nat
deriving DecidableEq, Repr

/-- Opaque private key (`rsa.generate_private_key(...)` result). -/
structure PrivKey where
  keyId : Nat
deriving DecidableEq, Repr

/-- `key.public_key()`. -/
def PrivKey.public_key (k : PrivKey) : PubKey := ⟨k.keyId⟩

/-- An X.509 name; the code only ever builds single-attribute common names,
so a name is modelled by its common-name string. -/
abbrev X509Name := String

/-- `__version__` comes from `trustme._version`, which is outside the
embedded file; its value is irrelevant to every claim, only that it is a
fixed string appended to each display name. -/
def version_string : String := "0.0.0"

/-- `_common_name(name)`: suffix the display name with the generator marker
and wrap it as a single-attribute X.509 name. -/
def common_name (name : String) : X509Name :=
  name ++ " (generated by faketlscerts v" ++ version_string ++ ")"

/-- The payload of an X.509 extension, covering the four extension types the
code attaches.  The key-identifier digest computed by
`SubjectKeyIdentifier.from_public_key` is modelled as the public key itself
(the hash is an injective external primitive). -/
inductive ExtensionValue
  | subjectKeyIdentifier (digest : PubKey)
  | basicConstraints (ca : Bool) (path_length : Option Nat)
  | authorityKeyIdentifier (key_identifier : PubKey)
  | subjectAlternativeName (dns_names : List String)
deriving DecidableEq, Repr

/-- An extension together with its criticality flag. -/
structure Extension where
  value : ExtensionValue
  critical : Bool
deriving DecidableEq, Repr

/-- `x509.CertificateBuilder` state after `_cert_builder_common` has filled
in the common fields. -/
structure CertBuilder where
  subject : X509Name
  issuer : X509Name
  not_valid_before : Date
  not_valid_after : Date
  serial_number : Nat
  public_key : PubKey
  extensions : List Extension
deriving DecidableEq, Repr

/-- A signed certificate: the builder fields plus the signing key used in
`.sign(private_key=..., algorithm=SHA256)`. -/
structure Certificate where
  subject : X509Name
  issuer : X509Name
  not_valid_before : Date
  not_valid_after : Date
  serial_number : Nat
  public_key : PubKey
  extensions : List Extension
  signing_key : PrivKey
deriving DecidableEq, Repr

/-- `builder.add_extension(value, critical=...)`. -/
def CertBuilder.add_extension (b : CertBuilder) (v : ExtensionValue) (critical : Bool) :
    CertBuilder :=
  { b with extensions := b.extensions ++ [⟨v, critical⟩] }

/-- `builder.sign(private_key=key, algorithm=SHA256, backend=...)`. -/
def CertBuilder.sign (b : CertBuilder) (private_key : PrivKey) : Certificate :=
  { subject := b.subject, issuer := b.issuer,
    not_valid_before := b.not_valid_before, not_valid_after := b.not_valid_after,
    serial_number := b.serial_number, public_key := b.public_key,
    extensions := b.extensions, signing_key := private_key }

/-- `_cert_builder_common(subject, issuer, public_key)`:
`today = datetime.today()`, then `yesterday = today - timedelta(1)` (which
raises `OverflowError` at `datetime.min`), then
`forever = today.replace(year=today.year + 1000)` (which raises
`ValueError` on a day missing from the target month or a year beyond
`MAXYEAR`) — hence `Option`, in the evaluation order of the source; serial
number from `x509.random_serial_number()` (passed in), and a non-critical
Subject-Key-Identifier extension from the public key. -/
def cert_builder_common (subject issuer : X509Name) (public_key : PubKey)
    (today : Date) (serial : Nat) : Option CertBuilder :=
  match today.prevDay with
  | none => none
  | some yesterday =>
    match today.replaceYear (today.year + 1000) with
    | none => none
    | some forever =>
      some { subject := subject, issuer := issuer,
             not_valid_before := yesterday, not_valid_after := forever,
             serial_number := serial, public_key := public_key,
             extensions := [⟨.subjectKeyIdentifier public_key, false⟩] }

/-- `cert.extensions.get_extension_for_class(x509.SubjectKeyIdentifier)`:
first Subject-Key-Identifier extension with its criticality flag. -/
def Certificate.get_ski (c : Certificate) : Option (PubKey × Bool) :=
  c.extensions.findSome? fun e => match e.value with
    | .subjectKeyIdentifier d => some (d, e.critical)
    | _ => none

/-- First Authority-Key-Identifier extension with its criticality flag. -/
def Certificate.get_aki (c : Certificate) : Option (PubKey × Bool) :=
  c.extensions.findSome? fun e => match e.value with
    | .authorityKeyIdentifier d => some (d, e.critical)
    | _ => none

/-- First Subject-Alternative-Name extension with its criticality flag. -/
def Certificate.get_san (c : Certificate) : Option (List String × Bool) :=
  c.extensions.findSome? fun e => match e.value with
    | .subjectAlternativeName ds => some (ds, e.critical)
    | _ => none

/-- First BasicConstraints extension: (isCA, path length, critical). -/
def Certificate.get_bc (c : Certificate) : Option (Bool × Option Nat × Bool) :=
  c.extensions.findSome? fun e => match e.value with
    | .basicConstraints ca pl => some (ca, pl, e.critical)
    | _ => none

/-- `CA`: owns `_private_key` and the self-signed `_certificate`. -/
structure CA where
  _private_key : PrivKey
  _certificate : Certificate
deriving DecidableEq, Repr

/-- `CA.__init__`: generate a key (passed in), build via
`_cert_builder_common` with subject = issuer = the "Testing CA" common name
and the key's public half, add a critical `BasicConstraints(ca=True,
path_length=9)` extension, and sign with the CA's own private key.
`none` when `_cert_builder_common` raises on the creation date. -/
def CA.make (key : PrivKey) (today : Date) (serial : Nat) : Option CA :=
  match cert_builder_common (common_name "Testing CA") (common_name "Testing CA")
      key.public_key today serial with
  | none => none
  | some b =>
    some { _private_key := key,
           _certificate := (b.add_extension (.basicConstraints true (some 9)) true).sign key }

/-- `self.cert_pem = Blob(self._certificate.public_bytes(Encoding.PEM))`:
the PEM blob of the root certificate, modelled by the certificate value. -/
def CA.cert_pem (ca : CA) : Certificate := ca._certificate

/-- `LeafCert`: PEM blobs modelled by the values they encode.
`private_key_and_cert_chain_pem` is the concatenation of the key PEM and the
chain PEMs, modelled as the pair. -/
structure LeafCert where
  private_key_pem : PrivKey
  cert_chain_pems : List Certificate
  private_key_and_cert_chain_pem : PrivKey × List Certificate
deriving DecidableEq, Repr

/-- `LeafCert.__init__(private_key_pem, server_cert_pem)`: a one-element
chain and the combined key+chain blob. -/
def LeafCert.make (private_key_pem : PrivKey) (server_cert_pem : Certificate) : LeafCert :=
  { private_key_pem := private_key_pem,
    cert_chain_pems := [server_cert_pem],
    private_key_and_cert_chain_pem := (private_key_pem, [server_cert_pem]) }

/-- Observable side effects performed by `issue_server_cert` before it
returns, used to state that the empty-hostnames error precedes key
generation. -/
inductive Effect
  | keyGen
deriving DecidableEq, Repr

/-- Errors `issue_server_cert` can raise. -/
inductive IssueError
  | valueError (msg : String)
  | extensionNotFound
  | dateError
deriving DecidableEq, Repr

/-- `CA.issue_server_cert(*hostnames)`: raise `ValueError` when no hostname
is given (before generating the leaf key); otherwise generate a fresh key
(passed in, recorded in the effect trace), look up the CA certificate's
Subject-Key-Identifier, build via `_cert_builder_common` with subject = the
"Testing cert" common name, issuer = the CA certificate's subject and the
fresh key's public half, add critical `BasicConstraints(ca=False)`,
non-critical Authority-Key-Identifier from the CA's SKI, and a critical
Subject-Alternative-Name with one DNS entry per hostname in order; sign with
the CA's private key and wrap as a `LeafCert`. -/
def CA.issue_server_cert (ca : CA) (hostnames : List String) (fresh_key : PrivKey)
    (today : Date) (serial : Nat) : Except IssueError LeafCert × List Effect :=
  if hostnames.isEmpty then
    (.error (.valueError "Must specify at least one hostname"), [])
  else
    match ca._certificate.get_ski with
    | none => (.error .extensionNotFound, [.keyGen])
    | some ski =>
      match cert_builder_common (common_name "Testing cert") ca._certificate.subject
          fresh_key.public_key today serial with
      | none => (.error .dateError, [.keyGen])
      | some b =>
        let cert :=
          (((b.add_extension (.basicConstraints false none) true).add_extension
              (.authorityKeyIdentifier ski.1) false).add_extension
              (.subjectAlternativeName hostnames) true).sign ca._private_key
        (.ok (LeafCert.make fresh_key cert), [.keyGen])

/-! ### Context configuration protocol

A TLS context value is modelled by the features the dispatch inspects
(whether it is an `ssl.SSLContext` instance, its class's module and class
names) together with the caller-visible state the configuration operations
mutate (trusted roots, the loaded private key and certificate). -/

/-- A TLS context passed to `configure_trust` / `configure_cert`. -/
structure Ctx where
  is_ssl_context : Bool
  module_name : String
  class_name : String
  trust_store : List Certificate
  loaded_key : Option PrivKey
  loaded_cert : Option Certificate
deriving DecidableEq, Repr

/-- Python's `str.startswith`, modelled over the underlying character
list. -/
def strStartsWith (s p : String) : Bool :=
  p.toList.isPrefixOf s.toList

/-- `_smells_like_pyopenssl(ctx)`: the class's module name starts with
"OpenSSL". -/
def smells_like_pyopenssl (ctx : Ctx) : Bool :=
  strStartsWith ctx.module_name "OpenSSL"

/-- Errors the configuration operations can raise.  `typeError` carries the
context's class name (the Python message is
`"unrecognized context type {!r}".format(ctx.__class__.__name__)`). -/
inductive ConfigError
  | typeError (class_name : String)
  | assertionError
  | indexError
deriving DecidableEq, Repr

/-- The message of the unrecognized-context error; Python's `{!r}` also adds
quotes around the name, elided here. -/
def ConfigError.message : ConfigError → String
  | .typeError n => "unrecognized context type " ++ n
  | .assertionError => "AssertionError"
  | .indexError => "list index out of range"

/-- The context-mutating library calls, recorded in order. -/
inductive ConfigOp
  | load_verify_locations
  | add_cert_to_store
  | load_cert_chain
  | use_privatekey
  | use_certificate
deriving DecidableEq, Repr

/-- `CA.configure_trust(ctx)`: for an `ssl.SSLContext`, load the CA PEM via
`load_verify_locations(cadata=...)`; for a pyOpenSSL context, parse the
certificate and add it to the context's certificate store; otherwise raise
`TypeError`.  Returns the result, the context after any mutation, and the
trace of mutating calls. -/
def CA.configure_trust (ca : CA) (ctx : Ctx) :
    Except ConfigError Unit × Ctx × List ConfigOp :=
  if ctx.is_ssl_context then
    (.ok (), { ctx with trust_store := ctx.trust_store ++ [ca.cert_pem] },
      [.load_verify_locations])
  else if smells_like_pyopenssl ctx then
    (.ok (), { ctx with trust_store := ctx.trust_store ++ [ca.cert_pem] },
      [.add_cert_to_store])
  else
    (.error (.typeError ctx.class_name), ctx, [])

/-- `LeafCert.configure_cert(ctx)`: for an `ssl.SSLContext`, write the
combined key+chain PEM to a temporary file and `load_cert_chain` it (one
call installing both key and leaf certificate); for a pyOpenSSL context,
`use_privatekey` on the parsed key, then `use_certificate` on the parsed
`cert_chain_pems[0]` (IndexError on an empty chain), then
`assert len(self.cert_chain_pems) == 1`; otherwise raise `TypeError`. -/
def LeafCert.configure_cert (leaf : LeafCert) (ctx : Ctx) :
    Except ConfigError Unit × Ctx × List ConfigOp :=
  if ctx.is_ssl_context then
    (.ok (),
      { ctx with loaded_key := some leaf.private_key_and_cert_chain_pem.1,
                 loaded_cert := leaf.private_key_and_cert_chain_pem.2.head? },
      [.load_cert_chain])
  else if smells_like_pyopenssl ctx then
    match leaf.cert_chain_pems with
    | [] =>
      (.error .indexError, { ctx with loaded_key := some leaf.private_key_pem },
        [.use_privatekey])
    | c :: rest =>
      let ctx2 := { ctx with loaded_key := some leaf.private_key_pem,
                             loaded_cert := some c }
      if rest.isEmpty then
        (.ok (), ctx2, [.use_privatekey, .use_certificate])
      else
        (.error .assertionError, ctx2, [.use_privatekey, .use_certificate])
  else
    (.error (.typeError ctx.class_name), ctx, [])

/-! ### Blob and the filesystem model

`Blob` wraps raw bytes.  The filesystem is a map from paths to file records
(content plus whether a write handle is still open), enough to state the
write/read round-trip and the scoped temporary-file guarantees. -/

/-- Raw bytes. -/
abbrev Bytes := List Nat

/-- A file on disk: its content and whether a write handle is open. -/
structure FileRec where
  content : Bytes
  handleOpen : Bool
deriving DecidableEq, Repr

/-- The filesystem: paths to file records. -/
def FS := String → Option FileRec

/-- The empty filesystem. -/
def fsEmpty : FS := fun _ => none

/-- Create or replace the file at a path. -/
def fsSet (fs : FS) (p : String) (r : FileRec) : FS :=
  fun q => if q = p then some r else fs q

/-- Close the handle of the file at a path (`f.close()`). -/
def fsClose (fs : FS) (p : String) : FS :=
  fun q => if q = p then (fs q).map (fun r => ⟨r.content, false⟩) else fs q

/-- Remove the file at a path (`os.unlink`). -/
def fsUnlink (fs : FS) (p : String) : FS :=
  fun q => if q = p then none else fs q

/-- Read the content of the file at a path, if it exists. -/
def fsRead (fs : FS) (p : String) : Option Bytes :=
  (fs p).map (·.content)

/-- `Blob`: a convenience wrapper for a blob of bytes. -/
structure Blob where
  _data : Bytes
deriving DecidableEq, Repr

/-- `Blob.bytes()`. -/
def Blob.bytes (b : Blob) : Bytes := b._data

/-- `Blob.write_to_path(path, append=...)`: open in mode `"ab"` or `"wb"`
(append keeps existing content, write truncates), write the data, and close
the handle when the `with` block exits. -/
def Blob.write_to_path (b : Blob) (path : String) (append : Bool) (fs : FS) : FS :=
  let existing := if append then (fsRead fs path).getD [] else []
  fsSet fs path ⟨existing ++ b._data, false⟩

/-- `Blob.tempfile()`: create a named temporary file, write the data, close
the handle, yield the path to the body, and unlink the path in a `finally`
block so deletion happens whether the body returns normally or raises.  The
fresh path chosen by `NamedTemporaryFile` and the body of the `with` block
are parameters; the body returns either a value or an error together with
the filesystem it leaves behind. -/
def Blob.tempfile {α : Type} (b : Blob) (path : String)
    (body : String → FS → Except String α × FS) (fs : FS) :
    Except String α × FS :=
  let fs1 := fsClose (fsSet fs path ⟨b._data, true⟩) path
  let r := body path fs1
  (r.1, fsUnlink r.2 path)

/-! ### Theorems -/

/-- Characterization of a successful run of the shared certificate builder:
the previous-day computation succeeded, and the resulting builder is
exactly the record with the common fields filled in, the validity window
computed from the creation date, and the single non-critical
Subject-Key-Identifier extension. -/
theorem cert_builder_common_spec (subject issuer : X509Name) (pk : PubKey)
    (today : Date) (serial : Nat) (b : CertBuilder)
    (h : cert_builder_common subject issuer pk today serial = some b) :
    ∃ yesterday, today.prevDay = some yesterday ∧
      b = { subject := subject, issuer := issuer,
            not_valid_before := yesterday,
            not_valid_after := ⟨today.year + 1000, today.month, today.day⟩,
            serial_number := serial, public_key := pk,
            extensions := [⟨.subjectKeyIdentifier pk, false⟩] } := by
  simp only [cert_builder_common] at h
  cases hp : today.prevDay with
  | none => rw [hp] at h; exact absurd h (by simp)
  | some yesterday =>
    rw [hp] at h
    cases hr : today.replaceYear (today.year + 1000) with
    | none => rw [hr] at h; exact absurd h (by simp)
    | some forever =>
      rw [hr] at h
      have hf : forever = ⟨today.year + 1000, today.month, today.day⟩ := by
        simp only [Date.replaceYear] at hr
        split at hr
        · exact ((Option.some.injEq _ _).mp hr).symm
        · exact absurd hr (by simp)
      injection h with h2
      exact ⟨yesterday, rfl, by rw [← h2, hf]⟩

/-- C2: issuing with zero hostnames raises the invalid-argument
`ValueError` ("Must specify at least one hostname"), returns no
certificate, and performs no effect (in particular no key generation)
before the error: the effect trace is empty. -/
theorem issue_server_cert_empty_hostnames (ca : CA) (k : PrivKey) (today : Date)
    (serial : Nat) :
    ca.issue_server_cert [] k today serial =
      (.error (.valueError "Must specify at least one hostname"), []) := rfl

/-- C3: a successfully constructed CA's root certificate is self-signed
(signed with the CA's own private key, carrying its public half) with
subject name equal to issuer name, carries a critical BasicConstraints
extension with isCA = true and path length 9, and carries a non-critical
Subject-Key-Identifier derived from its own public key. -/
theorem CA_make_self_signed (key : PrivKey) (today : Date) (serial : Nat) (ca : CA)
    (h : CA.make key today serial = some ca) :
    ca._certificate.subject = ca._certificate.issuer ∧
    ca._certificate.signing_key = ca._private_key ∧
    ca._certificate.public_key = ca._private_key.public_key ∧
    ca._certificate.get_bc = some (true, some 9, true) ∧
    ca._certificate.get_ski = some (ca._private_key.public_key, false) := by
  simp only [CA.make] at h
  cases hb : cert_builder_common (common_name "Testing CA") (common_name "Testing CA")
      key.public_key today serial with
  | none => rw [hb] at h; exact absurd h (by simp)
  | some b =>
    rw [hb] at h
    injection h with h2
    obtain ⟨yesterday, hprev, rfl⟩ := cert_builder_common_spec _ _ _ _ _ _ hb
    rw [← h2]
    exact ⟨rfl, rfl, rfl, rfl, rfl⟩

/-- C4: every certificate builder produced by the shared builder has
validity window [creation time minus one day, creation time with the year
advanced by 1000]: not-valid-before is the previous calendar day (the
successful result of the one-day subtraction) and not-valid-after keeps
the month and day with the year + 1000. -/
theorem cert_builder_validity_window (subject issuer : X509Name) (pk : PubKey)
    (today : Date) (serial : Nat) (b : CertBuilder)
    (h : cert_builder_common subject issuer pk today serial = some b) :
    today.prevDay = some b.not_valid_before ∧
    b.not_valid_after = ⟨today.year + 1000, today.month, today.day⟩ := by
  obtain ⟨yesterday, hprev, rfl⟩ := cert_builder_common_spec _ _ _ _ _ _ h
  exact ⟨hprev, rfl⟩

/-- Concrete CA used by the witnesses: the result of `CA.make ⟨0⟩
⟨2020, 1, 15⟩ 7`. -/
def caW : CA :=
  { _private_key := ⟨0⟩,
    _certificate :=
      { subject := common_name "Testing CA", issuer := common_name "Testing CA",
        not_valid_before := ⟨2020, 1, 14⟩, not_valid_after := ⟨3020, 1, 15⟩,
        serial_number := 7, public_key := ⟨0⟩,
        extensions := [⟨.subjectKeyIdentifier ⟨0⟩, false⟩,
                       ⟨.basicConstraints true (some 9), true⟩],
        signing_key := ⟨0⟩ } }

/-- Witness for C3 at the concrete CA built from key ⟨0⟩ on 2020-01-15. -/
theorem CA_make_self_signed_witness :
    caW._certificate.subject = caW._certificate.issuer ∧
    caW._certificate.signing_key = caW._private_key ∧
    caW._certificate.public_key = caW._private_key.public_key ∧
    caW._certificate.get_bc = some (true, some 9, true) ∧
    caW._certificate.get_ski = some (caW._private_key.public_key, false) :=
  CA_make_self_signed ⟨0⟩ ⟨2020, 1, 15⟩ 7 caW (by decide)

/-- Concrete builder used by the C4 witness. -/
def builderW : CertBuilder :=
  { subject := "s", issuer := "i",
    not_valid_before := ⟨2020, 1, 14⟩, not_valid_after := ⟨3020, 1, 15⟩,
    serial_number := 7, public_key := ⟨0⟩,
    extensions := [⟨.subjectKeyIdentifier ⟨0⟩, false⟩] }

/-- Witness for C4 at a concrete builder run on 2020-01-15. -/
theorem cert_builder_validity_window_witness :
    Date.prevDay ⟨2020, 1, 15⟩ = some builderW.not_valid_before ∧
    builderW.not_valid_after = ⟨2020 + 1000, 1, 15⟩ :=
  cert_builder_validity_window "s" "i" ⟨0⟩ ⟨2020, 1, 15⟩ 7 builderW (by decide)

/-- C1: a successful issuance for hostnames H yields a leaf whose chain is
exactly one certificate; that certificate carries a critical
Subject-Alternative-Name extension whose DNS list is H itself (one entry
per hostname, in order), and a non-critical Authority-Key-Identifier equal
to the CA certificate's Subject-Key-Identifier. -/
theorem issue_server_cert_correct (ca : CA) (H : List String) (k : PrivKey)
    (today : Date) (serial : Nat) (L : LeafCert) (tr : List Effect)
    (h : ca.issue_server_cert H k today serial = (.ok L, tr)) :
    L.cert_chain_pems.length = 1 ∧
    ∃ cert ski, L.cert_chain_pems = [cert] ∧
      cert.get_san = some (H, true) ∧
      ca._certificate.get_ski = some ski ∧
      cert.get_aki = some (ski.1, false) := by
  simp only [CA.issue_server_cert] at h
  by_cases hH : H.isEmpty
  · rw [if_pos hH] at h
    simp at h
  · rw [if_neg hH] at h
    cases hski : ca._certificate.get_ski with
    | none => rw [hski] at h; simp at h
    | some ski =>
      rw [hski] at h
      cases hb : cert_builder_common (common_name "Testing cert") ca._certificate.subject
          k.public_key today serial with
      | none => rw [hb] at h; simp at h
      | some b =>
        rw [hb] at h
        rw [Prod.mk.injEq] at h
        obtain ⟨h1, h2⟩ := h
        injection h1 with h1
        subst h1
        obtain ⟨yesterday, hprev, rfl⟩ := cert_builder_common_spec _ _ _ _ _ _ hb
        exact ⟨rfl, _, ski, rfl, rfl, rfl, rfl⟩

/-- The concrete leaf certificate issued by `caW` for ["example.org"] with
fresh key ⟨1⟩ on 2020-01-15 with serial 8. -/
def certW : Certificate :=
  { subject := common_name "Testing cert", issuer := common_name "Testing CA",
    not_valid_before := ⟨2020, 1, 14⟩, not_valid_after := ⟨3020, 1, 15⟩,
    serial_number := 8, public_key := ⟨1⟩,
    extensions := [⟨.subjectKeyIdentifier ⟨1⟩, false⟩,
                   ⟨.basicConstraints false none, true⟩,
                   ⟨.authorityKeyIdentifier ⟨0⟩, false⟩,
                   ⟨.subjectAlternativeName ["example.org"], true⟩],
    signing_key := ⟨0⟩ }

/-- The concrete `LeafCert` wrapping `certW`. -/
def leafW : LeafCert := LeafCert.make ⟨1⟩ certW

/-- Witness for C1 at the concrete issuance of ["example.org"] by `caW`. -/
theorem issue_server_cert_correct_witness :
    leafW.cert_chain_pems.length = 1 ∧
    ∃ cert ski, leafW.cert_chain_pems = [cert] ∧
      cert.get_san = some (["example.org"], true) ∧
      caW._certificate.get_ski = some ski ∧
      cert.get_aki = some (ski.1, false) :=
  issue_server_cert_correct caW ["example.org"] ⟨1⟩ ⟨2020, 1, 15⟩ 8 leafW [.keyGen]
    (by rfl)

/-- C5: a context that is neither an `ssl.SSLContext` nor has a class whose
module name starts with "OpenSSL" makes both `configure_trust` and
`configure_cert` raise the unrecognized-context `TypeError`, whose message
names the context's concrete class; and a context matching either shape
never reaches this error in either operation. -/
theorem configure_unrecognized_context (ca : CA) (leaf : LeafCert) (ctx : Ctx)
    (h1 : ctx.is_ssl_context = false)
    (h2 : strStartsWith ctx.module_name "OpenSSL" = false) :
    (ca.configure_trust ctx).1 = .error (.typeError ctx.class_name) ∧
    (leaf.configure_cert ctx).1 = .error (.typeError ctx.class_name) ∧
    ConfigError.message (.typeError ctx.class_name) =
      "unrecognized context type " ++ ctx.class_name ∧
    (∀ ctx2 : Ctx, ctx2.is_ssl_context = true ∨ smells_like_pyopenssl ctx2 = true →
      (∀ n, (ca.configure_trust ctx2).1 ≠ .error (.typeError n)) ∧
      (∀ n, (leaf.configure_cert ctx2).1 ≠ .error (.typeError n))) := by
  refine ⟨?_, ?_, rfl, ?_⟩
  · simp [CA.configure_trust, smells_like_pyopenssl, h1, h2]
  · simp [LeafCert.configure_cert, smells_like_pyopenssl, h1, h2]
  · intro ctx2 hc
    constructor
    · intro n
      unfold CA.configure_trust
      rcases hc with hc | hc
      · simp [hc]
      · by_cases hs : ctx2.is_ssl_context <;> simp [hs, hc]
    · intro n
      unfold LeafCert.configure_cert
      rcases hc with hc | hc
      · simp [hc]
      · by_cases hs : ctx2.is_ssl_context
        · simp [hs]
        · cases hch : leaf.cert_chain_pems with
          | nil => simp [hs, hc, hch]
          | cons c rest =>
            by_cases hr : rest.isEmpty <;> simp [hs, hc, hch, hr]

/-- A context of the native shape (`ssl.SSLContext`), initially untouched. -/
def ctxNative : Ctx :=
  { is_ssl_context := true, module_name := "ssl", class_name := "SSLContext",
    trust_store := [], loaded_key := none, loaded_cert := none }

/-- A context of the alternate (pyOpenSSL) shape, initially untouched. -/
def ctxAlt : Ctx :=
  { is_ssl_context := false, module_name := "OpenSSL.SSL", class_name := "Context",
    trust_store := [], loaded_key := none, loaded_cert := none }

/-- A context matching neither supported shape. -/
def ctxOther : Ctx :=
  { is_ssl_context := false, module_name := "builtins", class_name := "dict",
    trust_store := [], loaded_key := none, loaded_cert := none }

/-- Witness for C5 at a plain `dict` context. -/
theorem configure_unrecognized_context_witness :
    (caW.configure_trust ctxOther).1 = .error (.typeError ctxOther.class_name) ∧
    (leafW.configure_cert ctxOther).1 = .error (.typeError ctxOther.class_name) ∧
    ConfigError.message (.typeError ctxOther.class_name) =
      "unrecognized context type " ++ ctxOther.class_name ∧
    (∀ ctx2 : Ctx, ctx2.is_ssl_context = true ∨ smells_like_pyopenssl ctx2 = true →
      (∀ n, (caW.configure_trust ctx2).1 ≠ .error (.typeError n)) ∧
      (∀ n, (leafW.configure_cert ctx2).1 ≠ .error (.typeError n))) :=
  configure_unrecognized_context caW leafW ctxOther (by rfl) (by decide)

/-- A throwaway certificate value used to build a hypothetical two-entry
chain. -/
def certDummy : Certificate :=
  { subject := "s", issuer := "i", not_valid_before := ⟨2020, 1, 1⟩,
    not_valid_after := ⟨3020, 1, 1⟩, serial_number := 0, public_key := ⟨0⟩,
    extensions := [], signing_key := ⟨0⟩ }

/-- A hypothetical leaf whose chain has two entries (the code never builds
one, but the claim quantifies over such values). -/
def leafTwoChain : LeafCert :=
  { private_key_pem := ⟨1⟩, cert_chain_pems := [certDummy, certDummy],
    private_key_and_cert_chain_pem := (⟨1⟩, [certDummy, certDummy]) }

/-- Counterexample to C6 as stated: with a two-entry chain, presentation
against the native (`ssl.SSLContext`) variant does not fail with the
internal-consistency assertion; it succeeds, because the chain-length
assertion exists only in the pyOpenSSL branch. -/
theorem configure_cert_long_chain_native_no_assert :
    leafTwoChain.cert_chain_pems.length = 2 ∧
    (leafTwoChain.configure_cert ctxNative).1 = .ok () := ⟨rfl, rfl⟩

/-- C6 (amended): with a chain longer than one entry, presentation against
the alternate (pyOpenSSL) variant fails with the internal-consistency
assertion; the native variant performs no chain-length check; and with a
chain of exactly one entry the assertion never fires under any context. -/
theorem configure_cert_long_chain_assert (leaf : LeafCert) (ctx : Ctx)
    (hssl : ctx.is_ssl_context = false) (hpy : smells_like_pyopenssl ctx = true) :
    (1 < leaf.cert_chain_pems.length →
      (leaf.configure_cert ctx).1 = .error .assertionError) ∧
    (leaf.cert_chain_pems.length = 1 →
      ∀ ctx2 : Ctx, (leaf.configure_cert ctx2).1 ≠ .error .assertionError) := by
  constructor
  · intro hlen
    unfold LeafCert.configure_cert
    cases hch : leaf.cert_chain_pems with
    | nil => rw [hch] at hlen; simp at hlen
    | cons c rest =>
      rw [hch] at hlen
      have hr : rest.isEmpty = false := by
        cases rest with
        | nil => simp at hlen
        | cons c2 rest2 => rfl
      simp [hssl, hpy, hch, hr]
  · intro hlen ctx2
    unfold LeafCert.configure_cert
    by_cases hs : ctx2.is_ssl_context
    · simp [hs]
    · by_cases hp : smells_like_pyopenssl ctx2
      · cases hch : leaf.cert_chain_pems with
        | nil => rw [hch] at hlen; simp at hlen
        | cons c rest =>
          rw [hch] at hlen
          have hr : rest.isEmpty = true := by
            cases rest with
            | nil => rfl
            | cons c2 rest2 => simp at hlen
          simp [hs, hp, hch, hr]
      · simp [hs, hp]

/-- Witness for the amended C6: the two-entry chain fails the assertion
against the pyOpenSSL context. -/
theorem configure_cert_long_chain_assert_witness :
    (leafTwoChain.configure_cert ctxAlt).1 = .error .assertionError :=
  (configure_cert_long_chain_assert leafTwoChain ctxAlt (by rfl) (by decide)).1
    (by decide)

/-- C7: every error raised by a configuration operation leaves the context
unchanged (for leaves as the constructor builds them, with a one-entry
chain), and in the pyOpenSSL path of `configure_cert` the private-key
load-and-assign is ordered before the certificate load-and-assign: the
mutation trace is exactly [use_privatekey, use_certificate]. -/
theorem configure_errors_no_partial_mutation (ca : CA) (k : PrivKey)
    (c : Certificate) (ctx : Ctx) :
    (∀ e, (ca.configure_trust ctx).1 = .error e → (ca.configure_trust ctx).2.1 = ctx) ∧
    (∀ e, ((LeafCert.make k c).configure_cert ctx).1 = .error e →
      ((LeafCert.make k c).configure_cert ctx).2.1 = ctx) ∧
    (ctx.is_ssl_context = false → smells_like_pyopenssl ctx = true →
      ((LeafCert.make k c).configure_cert ctx).2.2 =
        [.use_privatekey, .use_certificate]) := by
  refine ⟨?_, ?_, ?_⟩
  · intro e he
    unfold CA.configure_trust at he ⊢
    by_cases hs : ctx.is_ssl_context
    · simp [hs] at he
    · by_cases hp : smells_like_pyopenssl ctx
      · simp [hs, hp] at he
      · simp [hs, hp]
  · intro e he
    unfold LeafCert.configure_cert at he ⊢
    by_cases hs : ctx.is_ssl_context
    · simp [hs] at he
    · by_cases hp : smells_like_pyopenssl ctx
      · simp [hs, hp, LeafCert.make] at he
      · simp [hs, hp]
  · intro hs hp
    simp [LeafCert.configure_cert, hs, hp, LeafCert.make]

/-- Witness for C7: the unrecognized `dict` context is returned unchanged
by `configure_cert` on its error, and the pyOpenSSL trace is
key-then-certificate. -/
theorem configure_errors_no_partial_mutation_witness :
    ((LeafCert.make ⟨1⟩ certDummy).configure_cert ctxOther).2.1 = ctxOther ∧
    ((LeafCert.make ⟨1⟩ certDummy).configure_cert ctxAlt).2.2 =
      [.use_privatekey, .use_certificate] :=
  ⟨(configure_errors_no_partial_mutation caW ⟨1⟩ certDummy ctxOther).2.1
      (.typeError "dict") (by rfl),
    (configure_errors_no_partial_mutation caW ⟨1⟩ certDummy ctxAlt).2.2
      (by rfl) (by decide)⟩

/-- C8: the scoped temporary file.  The body of the scope is invoked with
the filesystem in which the yielded path holds exactly the blob's bytes
with its handle already closed, and after the scope exits — whatever the
body returns, a value or an error — the path no longer exists. -/
theorem tempfile_scoped {α : Type} (b : Blob) (path : String)
    (body : String → FS → Except String α × FS) (fs : FS) :
    (fsClose (fsSet fs path ⟨b.bytes, true⟩) path) path = some ⟨b.bytes, false⟩ ∧
    b.tempfile path body fs =
      ((body path (fsClose (fsSet fs path ⟨b.bytes, true⟩) path)).1,
        fsUnlink (body path (fsClose (fsSet fs path ⟨b.bytes, true⟩) path)).2 path) ∧
    fsRead (b.tempfile path body fs).2 path = none := by
  refine ⟨?_, rfl, ?_⟩
  · simp [fsClose, fsSet, Blob.bytes]
  · simp [Blob.tempfile, fsRead, fsUnlink]

/-- C9: a `Blob` built from bytes B returns exactly B from `bytes()`;
writing it with `write_to_path` in the default truncating mode and reading
the path back yields exactly B; with `append=True` the bytes are appended
after the existing content. -/
theorem blob_write_roundtrip (B : Bytes) (path : String) (fs : FS) :
    (Blob.mk B).bytes = B ∧
    fsRead ((Blob.mk B).write_to_path path false fs) path = some B ∧
    (∀ old, fsRead fs path = some old →
      fsRead ((Blob.mk B).write_to_path path true fs) path = some (old ++ B)) := by
  refine ⟨rfl, ?_, ?_⟩
  · simp [Blob.write_to_path, fsRead, fsSet]
  · intro old hold
    simp only [fsRead] at hold
    simp [Blob.write_to_path, fsRead, fsSet, hold]

/-- A one-file filesystem used by the C9 witness. -/
def fsW : FS := fsSet fsEmpty "p" ⟨[9], false⟩

/-- Witness for C9: appending [1, 2] to a file holding [9] yields
[9, 1, 2]. -/
theorem blob_write_roundtrip_witness :
    fsRead ((Blob.mk [1, 2]).write_to_path "p" true fsW) "p" = some ([9] ++ [1, 2]) :=
  (blob_write_roundtrip [1, 2] "p" fsW).2.2 [9] (by decide)

/-- February always has 28 or 29 days depending on the leap-year rule. -/
theorem daysInMonth_feb (y : Nat) :
    daysInMonth y 2 = if isLeapYear y then 29 else 28 := rfl

/-- Outside February the month length does not depend on the year. -/
theorem daysInMonth_not_feb (y1 y2 m : Nat) (hm : m ≠ 2) :
    daysInMonth y1 m = daysInMonth y2 m := by
  have hbeq : (m == 2) = false := by simpa using hm
  simp [daysInMonth, hbeq]

/-- On a valid date, `replace(year=year+1000)` fails exactly on February 29
of a year whose +1000 counterpart is not a leap year, or when the target
year exceeds `MAXYEAR` (9999). -/
theorem replaceYear_add1000_none_iff (d : Date) (hd : d.valid = true) :
    d.replaceYear (d.year + 1000) = none ↔
      ((d.month = 2 ∧ d.day = 29 ∧ isLeapYear (d.year + 1000) = false) ∨
        9999 < d.year + 1000) := by
  simp only [Date.valid, Bool.and_eq_true, decide_eq_true_eq] at hd
  obtain ⟨⟨⟨⟨⟨hy1, hy2⟩, hm1⟩, hm2⟩, hday1⟩, hday2⟩ := hd
  constructor
  · intro hnone
    simp only [Date.replaceYear, ite_eq_right_iff] at hnone
    by_cases hy : d.year + 1000 ≤ 9999
    · left
      have hgt : ¬ d.day ≤ daysInMonth (d.year + 1000) d.month := by
        intro hle
        exact absurd (hnone ⟨by omega, hy, hle⟩) (by simp)
      by_cases hm : d.month = 2
      · rw [hm] at hgt
        rw [hm] at hday2
        have h29 : d.day ≤ 29 :=
          le_trans hday2 (by rw [daysInMonth_feb]; split <;> omega)
        cases hl : isLeapYear (d.year + 1000) with
        | true =>
          exfalso; apply hgt
          rw [daysInMonth_feb, hl]
          simpa using h29
        | false =>
          refine ⟨hm, ?_, rfl⟩
          have h28 : daysInMonth (d.year + 1000) 2 = 28 := by
            rw [daysInMonth_feb, hl]; rfl
          rw [h28] at hgt
          omega
      · exfalso
        apply hgt
        rw [daysInMonth_not_feb (d.year + 1000) d.year d.month hm]
        exact hday2
    · right; omega
  · intro hcase
    simp only [Date.replaceYear, ite_eq_right_iff]
    rcases hcase with ⟨hm, hday, hl⟩ | hy
    · have h28 : daysInMonth (d.year + 1000) d.month = 28 := by
        rw [hm, daysInMonth_feb, hl]; rfl
      rintro ⟨-, -, hle⟩
      exfalso
      rw [h28] at hle
      omega
    · rintro ⟨-, hle, -⟩
      exfalso
      omega

/-- On a valid date, the one-day subtraction fails exactly at
`datetime.min` = 0001-01-01. -/
theorem prevDay_none_iff (d : Date) (hd : d.valid = true) :
    d.prevDay = none ↔ d = ⟨1, 1, 1⟩ := by
  simp only [Date.valid, Bool.and_eq_true, decide_eq_true_eq] at hd
  obtain ⟨⟨⟨⟨⟨hy1, hy2⟩, hm1⟩, hm2⟩, hday1⟩, hday2⟩ := hd
  constructor
  · intro hnone
    unfold Date.prevDay at hnone
    split at hnone
    · exact absurd hnone (by simp)
    · split at hnone
      · exact absurd hnone (by simp)
      · split at hnone
        · exact absurd hnone (by simp)
        · rename_i hna hnb hnc
          obtain ⟨y, m, dd⟩ := d
          simp only [Date.mk.injEq]
          simp only at hna hnb hnc hy1 hm1 hday1
          omega
  · intro h
    subst h
    decide

/-- The shared builder fails exactly when one of its two date computations
fails: the one-day subtraction or the 1000-year replacement. -/
theorem cert_builder_common_eq_none_iff (s i : X509Name) (pk : PubKey) (d : Date)
    (serial : Nat) :
    cert_builder_common s i pk d serial = none ↔
      (d.prevDay = none ∨ d.replaceYear (d.year + 1000) = none) := by
  unfold cert_builder_common
  cases hp : d.prevDay with
  | none => simp
  | some y =>
    cases hr : d.replaceYear (d.year + 1000) with
    | none => simp
    | some f => simp

/-- Counterexample to C10 as stated: 9000-06-01 is a valid creation date
and is not a February 29, yet the shared builder fails there, because the
replacement year 10000 exceeds datetime's maximum year 9999 — so the
claim's "for every other creation date the computation succeeds" is false
of the code. -/
theorem cert_builder_date_totality_counterexample :
    Date.valid ⟨9000, 6, 1⟩ = true ∧
    ¬((Date.mk 9000 6 1).month = 2 ∧ (Date.mk 9000 6 1).day = 29 ∧
        isLeapYear ((Date.mk 9000 6 1).year + 1000) = false) ∧
    cert_builder_common "s" "i" ⟨0⟩ ⟨9000, 6, 1⟩ 0 = none := by
  refine ⟨by decide, by decide, by decide⟩

/-- C10 (amended): certificate construction is not total over creation
dates.  The builder — and with it CA construction and issuance — fails on
February 29 of a year Y such that Y + 1000 is not a leap year (for example
Y = 2400), on any creation date whose year + 1000 exceeds datetime's
maximum year 9999, and on datetime's minimum date 0001-01-01, where the
one-day subtraction underflows; on every other valid creation date the
builder succeeds and the expiry keeps the month and the day. -/
theorem cert_builder_date_totality (d : Date) (hd : d.valid = true) :
    (((d.month = 2 ∧ d.day = 29 ∧ isLeapYear (d.year + 1000) = false) ∨
        9999 < d.year + 1000 ∨ d = ⟨1, 1, 1⟩) →
      (∀ s i pk serial, cert_builder_common s i pk d serial = none) ∧
      (∀ key serial, CA.make key d serial = none) ∧
      (∀ (ca : CA) H k serial L tr,
        CA.issue_server_cert ca H k d serial ≠ (Except.ok L, tr))) ∧
    (¬((d.month = 2 ∧ d.day = 29 ∧ isLeapYear (d.year + 1000) = false) ∨
        9999 < d.year + 1000 ∨ d = ⟨1, 1, 1⟩) →
      ∀ s i pk serial, ∃ bb, cert_builder_common s i pk d serial = some bb ∧
        bb.not_valid_after.month = d.month ∧ bb.not_valid_after.day = d.day) := by
  have hiff : ∀ s i pk serial,
      (cert_builder_common s i pk d serial = none ↔
        ((d.month = 2 ∧ d.day = 29 ∧ isLeapYear (d.year + 1000) = false) ∨
          9999 < d.year + 1000 ∨ d = ⟨1, 1, 1⟩)) := by
    intro s i pk serial
    rw [cert_builder_common_eq_none_iff, prevDay_none_iff d hd,
        replaceYear_add1000_none_iff d hd]
    tauto
  constructor
  · intro hbad
    have hcb : ∀ s i pk serial, cert_builder_common s i pk d serial = none :=
      fun s i pk serial => (hiff s i pk serial).mpr hbad
    refine ⟨hcb, ?_, ?_⟩
    · intro key serial
      simp [CA.make, hcb]
    · intro ca H k serial L tr heq
      by_cases hH : H.isEmpty
      · simp [CA.issue_server_cert, hH] at heq
      · cases hski : ca._certificate.get_ski with
        | none => simp [CA.issue_server_cert, hH, hski] at heq
        | some ski => simp [CA.issue_server_cert, hH, hski, hcb] at heq
  · intro hgood s i pk serial
    have hne : ¬ cert_builder_common s i pk d serial = none :=
      fun hn => hgood ((hiff s i pk serial).mp hn)
    cases hb : cert_builder_common s i pk d serial with
    | none => exact absurd hb hne
    | some bb =>
      obtain ⟨yesterday, hprev, rfl⟩ := cert_builder_common_spec _ _ _ _ _ _ hb
      exact ⟨_, rfl, rfl, rfl⟩

/-- Witness for the amended C10: 2400-02-29 is a valid creation date whose
+1000 counterpart 3400 is not a leap year, and there the builder and CA
construction both fail; 2020-01-15 is not a failing date and the builder
succeeds there keeping month and day. -/
theorem cert_builder_date_totality_witness :
    cert_builder_common "s" "i" ⟨0⟩ ⟨2400, 2, 29⟩ 0 = none ∧
    CA.make ⟨0⟩ ⟨2400, 2, 29⟩ 0 = none ∧
    (∃ bb, cert_builder_common "s" "i" ⟨0⟩ ⟨2020, 1, 15⟩ 0 = some bb ∧
      bb.not_valid_after.month = 1 ∧ bb.not_valid_after.day = 15) :=
  ⟨((cert_builder_date_totality ⟨2400, 2, 29⟩ (by decide)).1 (by decide)).1 "s" "i" ⟨0⟩ 0,
   ((cert_builder_date_totality ⟨2400, 2, 29⟩ (by decide)).1 (by decide)).2.1 ⟨0⟩ 0,
   (cert_builder_date_totality ⟨2020, 1, 15⟩ (by decide)).2 (by decide) "s" "i" ⟨0⟩ 0⟩

end Trustme
